import Mathlib

/-!
Verification of the MELCloud Home Assistant integration
(`custom_components/melcloudwitherv`): the device-wrapper layer
(`MelCloudDevice`), the entity adapters (`PowerSwitch`,
`ErvFanSpeedSelect`, `ErvVentilationModeSelect`) and the fleet bootstrap
(`mel_devices_setup`, `async_setup_entry`).

The remote accessor's calls `update()` and `set(properties)` are external
effects; the embedding passes their outcome in explicitly as an
`Option PyErr` oracle (`none` meaning the call succeeded, `some e` meaning
it raised exception `e`).  A method that may let an exception escape to
its caller returns that exception as an `Option PyErr` component of its
result; the returned wrapper state is the state the caller observes
afterwards in either case.
-/

/-- The Python exceptions that appear in the integration's try/except
blocks: aiohttp's `ClientConnectionError` and `ClientResponseError`
(carrying an HTTP status), the builtin `AttributeError`, and the builtin
`TimeoutError` raised by `asyncio.timeout`. -/
inductive PyErr where
  | clientConnectionError
  | clientResponseError (status : Nat)
  | attributeError
  | timeoutError
deriving DecidableEq, Repr

/-- A property value passed in a `set` dict (`{"power": True}`,
`{"fan_speed": option}`, ...). -/
inductive PropValue where
  | bool (b : Bool)
  | str (s : String)
deriving DecidableEq, Repr

/-- One entry of `device.units`: a dict with a `"model"` key. -/
structure UnitInfo where
  model : String
deriving DecidableEq, Repr

/-- The remote device accessor (pymelcloud `Device`): opaque attribute
reads used by the integration.  `update()` and `set()` outcomes are
supplied externally as oracles. -/
structure Device where
  name : String
  mac : String
  serial : String
  device_id : Nat
  building_id : Nat
  units : Option (List UnitInfo)
  power : Bool
  fan_speed : String
  fan_speeds : List String
  ventilation_mode : String
  ventilation_modes : List String
deriving DecidableEq, Repr

/-- Modelled from the spec: the integration namespace constant `DOMAIN`
from `const.py`, which is not among the provided source files; the spec
calls it the identifier namespace of the device registry records. -/
def DOMAIN : String := "melcloudwitherv"

/-- `MIN_TIME_BETWEEN_UPDATES = timedelta(minutes=5)`, in seconds. -/
def MIN_TIME_BETWEEN_UPDATES : Nat := 5 * 60

/-- The device wrapper `MelCloudDevice`: holds the accessor, a display
name copied at construction, the availability flag `_available`
(defaulting to true), and the `Throttle` decorator's per-instance record
of the last effective invocation time of `async_update`. -/
structure MelCloudDevice where
  device : Device
  name : String
  _available : Bool
  lastUpdate : Option Nat
deriving DecidableEq, Repr

/-- `MelCloudDevice.__init__`: store the accessor, mirror its name, start
available, with no throttled invocation recorded yet. -/
def MelCloudDevice.init (device : Device) : MelCloudDevice :=
  { device := device, name := device.name, _available := true, lastUpdate := none }

/-- The `available` property: returns `_available`. -/
def MelCloudDevice.available (d : MelCloudDevice) : Bool :=
  d._available

/-- The `device_id` property. -/
def MelCloudDevice.device_id (d : MelCloudDevice) : Nat :=
  d.device.device_id

/-- The `building_id` property. -/
def MelCloudDevice.building_id (d : MelCloudDevice) : Nat :=
  d.device.building_id

/-- Modelled from the spec: `homeassistant.util.Throttle` (external hub
library, not in the source tree), reframed per the spec as a per-wrapper
rate limiter holding the last invocation time and the minimum interval.
An invocation runs when none has run before or at least the minimum
interval has elapsed since the last effective one; otherwise it is an
immediate no-op for the caller. -/
def throttleAllows (minInterval : Nat) (lastCall : Option Nat) (now : Nat) : Bool :=
  match lastCall with
  | none => true
  | some t => minInterval ≤ now - t

/-- `MelCloudDevice.async_update`, decorated with
`Throttle(MIN_TIME_BETWEEN_UPDATES)`.  `now` is the invocation time and
`updateResult` the outcome of `await self.device.update()`.  Returns the
wrapper state afterwards, whether the underlying `update()` was invoked,
and the exception escaping to the caller, if any:
  - throttled call: immediate no-op, no underlying call, no exception;
  - `update()` success: `_available := true`;
  - `ClientConnectionError`: warning log, `_available := false`;
  - `ClientResponseError` with status 401: re-raised, `_available` untouched;
  - `ClientResponseError` with any other status: debug log, `_available := true`;
  - `AttributeError`: warning log, `_available := false`;
  - any other exception (no matching except clause): propagates, `_available` untouched. -/
def MelCloudDevice.async_update (d : MelCloudDevice) (now : Nat)
    (updateResult : Option PyErr) : MelCloudDevice × Bool × Option PyErr :=
  if throttleAllows MIN_TIME_BETWEEN_UPDATES d.lastUpdate now then
    let d0 := { d with lastUpdate := some now }
    match updateResult with
    | none => ({ d0 with _available := true }, true, none)
    | some PyErr.clientConnectionError => ({ d0 with _available := false }, true, none)
    | some (PyErr.clientResponseError status) =>
        if status = 401 then (d0, true, some (PyErr.clientResponseError status))
        else ({ d0 with _available := true }, true, none)
    | some PyErr.attributeError => ({ d0 with _available := false }, true, none)
    | some PyErr.timeoutError => (d0, true, some PyErr.timeoutError)
  else
    (d, false, none)

/-- `MelCloudDevice.async_set`: `setResult` is the outcome of
`await self.device.set(properties)`.  Returns the wrapper state afterwards
and the exception escaping to the caller, if any:
  - success: `_available := true`;
  - `ClientConnectionError`: warning log, `_available := false`;
  - anything else (no matching except clause): propagates, `_available` untouched. -/
def MelCloudDevice.async_set (d : MelCloudDevice)
    (properties : List (String × PropValue)) (setResult : Option PyErr) :
    MelCloudDevice × Option PyErr :=
  match setResult with
  | none => ({ d with _available := true }, none)
  | some PyErr.clientConnectionError => ({ d with _available := false }, none)
  | some e => (d, some e)

/-- A `DeviceInfo` record for the hub's device registry. -/
structure DeviceInfo where
  connections : List (String × String)
  identifiers : List (String × String)
  manufacturer : String
  model : Option String
  name : String
  via_device : Option (String × String)
deriving DecidableEq, Repr

/-- The hub constant `CONNECTION_NETWORK_MAC`. -/
def CONNECTION_NETWORK_MAC : String := "mac"

/-- The `device_info` property: model is `None` when `device.units` is,
and otherwise the `", "`-join of the truthy (non-empty) `"model"` strings
of the units. -/
def MelCloudDevice.device_info (d : MelCloudDevice) : DeviceInfo :=
  let model : Option String :=
    match d.device.units with
    | none => none
    | some unit_infos =>
        some (String.intercalate ", "
          ((unit_infos.filter fun x => x.model ≠ "").map fun x => x.model))
  { connections := [(CONNECTION_NETWORK_MAC, d.device.mac)]
    identifiers := [(DOMAIN, d.device.mac ++ "-" ++ d.device.serial)]
    manufacturer := "Mitsubishi Electric"
    model := model
    name := d.name
    via_device := none }

/-- A pymelcloud ATW `Zone`: the attributes `zone_device_info` reads. -/
structure Zone where
  zone_index : Nat
  name : String
deriving DecidableEq, Repr

/-- The `zone_device_info` method. -/
def MelCloudDevice.zone_device_info (d : MelCloudDevice) (zone : Zone) : DeviceInfo :=
  { connections := []
    identifiers :=
      [(DOMAIN, d.device.mac ++ "-" ++ d.device.serial ++ "-" ++ toString zone.zone_index)]
    manufacturer := "Mitsubishi Electric"
    model := some "ATW zone device"
    name := d.name ++ " " ++ zone.name
    via_device := some (DOMAIN, d.device.mac ++ "-" ++ d.device.serial) }

/-! Entity adapters (`switch.py`, `select.py`).  Each holds the wrapper
`_api` and the accessor `_device` it was constructed with (the platform
setup passes `mel_device` and `mel_device.device`).  Their write handlers
call `self._device.set(set_dict)` on the accessor; the embedding returns
the dict passed to that `set` call, the adapter state afterwards, and the
exception escaping to the hub, if any. -/

/-- `PowerSwitch` from `switch.py`. -/
structure PowerSwitch where
  _api : MelCloudDevice
  _device : Device
  _attr_device_info : DeviceInfo
deriving DecidableEq, Repr

/-- `PowerSwitch.__init__(api, device)`. -/
def PowerSwitch.init (api : MelCloudDevice) (device : Device) : PowerSwitch :=
  { _api := api, _device := device, _attr_device_info := api.device_info }

/-- The switch `name` property. -/
def PowerSwitch.name (s : PowerSwitch) : String :=
  s._device.name ++ " Power"

/-- The switch `unique_id` property. -/
def PowerSwitch.unique_id (s : PowerSwitch) : String :=
  s._device.serial ++ "-" ++ s._device.mac ++ "_power_switch"

/-- The switch `is_on` property. -/
def PowerSwitch.is_on (s : PowerSwitch) : Bool :=
  s._device.power

/-- `PowerSwitch.async_turn_on`: builds `set_dict = {"power": True}` and
awaits `self._device.set(set_dict)` directly on the accessor (not through
`self._api.async_set`); `setResult` is that call's outcome and propagates
uncaught.  Returns the dict passed to `set`, the adapter state afterwards,
and the escaping exception, if any. -/
def PowerSwitch.async_turn_on (s : PowerSwitch) (setResult : Option PyErr) :
    List (String × PropValue) × PowerSwitch × Option PyErr :=
  ([("power", PropValue.bool true)], s, setResult)

/-- `PowerSwitch.async_turn_off`: as `async_turn_on` with
`set_dict = {"power": False}`. -/
def PowerSwitch.async_turn_off (s : PowerSwitch) (setResult : Option PyErr) :
    List (String × PropValue) × PowerSwitch × Option PyErr :=
  ([("power", PropValue.bool false)], s, setResult)

/-- `ErvFanSpeedSelect` from `select.py`. -/
structure ErvFanSpeedSelect where
  _api : MelCloudDevice
  _device : Device
  _attr_device_info : DeviceInfo
deriving DecidableEq, Repr

/-- `ErvFanSpeedSelect.__init__(api, device)`. -/
def ErvFanSpeedSelect.init (api : MelCloudDevice) (device : Device) : ErvFanSpeedSelect :=
  { _api := api, _device := device, _attr_device_info := api.device_info }

/-- `ErvFanSpeedSelect.async_select_option`: builds
`set_dict = {"fan_speed": option}` and awaits `self._device.set(set_dict)`
directly on the accessor; the outcome propagates uncaught. -/
def ErvFanSpeedSelect.async_select_option (s : ErvFanSpeedSelect) (opt : String)
    (setResult : Option PyErr) :
    List (String × PropValue) × ErvFanSpeedSelect × Option PyErr :=
  ([("fan_speed", PropValue.str opt)], s, setResult)

/-- `ErvVentilationModeSelect` from `select.py`. -/
structure ErvVentilationModeSelect where
  _api : MelCloudDevice
  _device : Device
  _attr_device_info : DeviceInfo
deriving DecidableEq, Repr

/-- `ErvVentilationModeSelect.__init__(api, device)`. -/
def ErvVentilationModeSelect.init (api : MelCloudDevice) (device : Device) :
    ErvVentilationModeSelect :=
  { _api := api, _device := device, _attr_device_info := api.device_info }

/-- `ErvVentilationModeSelect.async_select_option`: builds
`set_dict = {"ventilation_mode": option}` and awaits
`self._device.set(set_dict)` directly on the accessor; the outcome
propagates uncaught. -/
def ErvVentilationModeSelect.async_select_option (s : ErvVentilationModeSelect)
    (opt : String) (setResult : Option PyErr) :
    List (String × PropValue) × ErvVentilationModeSelect × Option PyErr :=
  ([("ventilation_mode", PropValue.str opt)], s, setResult)

/-! Fleet bootstrap (`mel_devices_setup` and `async_setup_entry`). -/

/-- The `asyncio.timeout(10)` deadline of `mel_devices_setup`, in seconds. -/
def BOOTSTRAP_TIMEOUT : Nat := 10

/-- `mel_devices_setup`: runs `get_devices` under `asyncio.timeout(10)`.
`elapsed` is how long the inventory fetch takes and `getDevicesResult` its
own outcome (the inventory grouped by device-type key, or an exception).
Exceeding the deadline cancels the fetch and raises `TimeoutError`, so no
partial inventory is observed.  On success every discovered device is
wrapped, per device type, preserving order. -/
def mel_devices_setup (elapsed : Nat)
    (getDevicesResult : Except PyErr (List (String × List Device))) :
    Except PyErr (List (String × List MelCloudDevice)) :=
  if BOOTSTRAP_TIMEOUT < elapsed then
    Except.error PyErr.timeoutError
  else
    match getDevicesResult with
    | Except.error e => Except.error e
    | Except.ok all_devices =>
        Except.ok (all_devices.map fun p => (p.1, p.2.map MelCloudDevice.init))

/-- The outcome of `async_setup_entry` as the hub sees it. -/
inductive SetupResult where
  | ok (fleet : List (String × List MelCloudDevice))
  | authFailed
  | notReady
  | uncaught (e : PyErr)
deriving DecidableEq, Repr

/-- `async_setup_entry`: calls `mel_devices_setup` and translates its
exceptions: `ClientResponseError` with code 401 becomes
`ConfigEntryAuthFailed`, any other `ClientResponseError` and
`TimeoutError`/`ClientConnectionError` become `ConfigEntryNotReady`;
anything else has no except clause and propagates. -/
def async_setup_entry (elapsed : Nat)
    (getDevicesResult : Except PyErr (List (String × List Device))) : SetupResult :=
  match mel_devices_setup elapsed getDevicesResult with
  | Except.ok mel_devices => SetupResult.ok mel_devices
  | Except.error (PyErr.clientResponseError code) =>
      if code = 401 then SetupResult.authFailed else SetupResult.notReady
  | Except.error PyErr.timeoutError => SetupResult.notReady
  | Except.error PyErr.clientConnectionError => SetupResult.notReady
  | Except.error PyErr.attributeError => SetupResult.uncaught PyErr.attributeError

/-- A concrete accessor used by witnesses and counterexamples. -/
def testDevice : Device :=
  { name := "Lossnay", mac := "00:1D:C9:AA:BB:CC", serial := "1234567890"
    device_id := 1, building_id := 2
    units := some [{ model := "VL-100" }]
    power := false
    fan_speed := "2", fan_speeds := ["1", "2", "3", "4"]
    ventilation_mode := "energy-recovery"
    ventilation_modes := ["energy-recovery", "bypass", "auto"] }

/-- A wrapper whose availability flag is currently false, used by
counterexamples and witnesses exercising a prior `available = false`. -/
def unavailableWrapper : MelCloudDevice :=
  { MelCloudDevice.init testDevice with _available := false }

/-- Accessor with units `[{model:"A"}, {model:""}, {model:"B"}]`. -/
def unitsABDevice : Device :=
  { testDevice with units := some [{ model := "A" }, { model := "" }, { model := "B" }] }

/-- Accessor with all-empty unit models. -/
def unitsEmptyDevice : Device :=
  { testDevice with units := some [{ model := "" }, { model := "" }] }

/-- A second concrete accessor of a different device class. -/
def testDevice2 : Device :=
  { testDevice with name := "Ecodan", serial := "0987654321" }

lemma wrap_unwrap (inv : List (String × List Device)) :
    ((inv.map fun p => (p.1, p.2.map MelCloudDevice.init)).map
        fun p => (p.1, p.2.map MelCloudDevice.device)) = inv := by
  induction inv with
  | nil => rfl
  | cons p ps ih =>
      have hinner : (p.2.map MelCloudDevice.init).map MelCloudDevice.device = p.2 := by
        induction p.2 with
        | nil => rfl
        | cons d ds ih2 => simp [ih2, MelCloudDevice.init]
      simp [ih, hinner]

lemma async_update_not_allowed (d : MelCloudDevice) (now : Nat) (r : Option PyErr)
    (h : throttleAllows MIN_TIME_BETWEEN_UPDATES d.lastUpdate now = false) :
    d.async_update now r = (d, false, none) := by
  simp [MelCloudDevice.async_update, h]

lemma async_update_invoked_lastUpdate (d : MelCloudDevice) (now : Nat) (r : Option PyErr)
    (h : throttleAllows MIN_TIME_BETWEEN_UPDATES d.lastUpdate now = true) :
    (d.async_update now r).1.lastUpdate = some now ∧ (d.async_update now r).2.1 = true := by
  cases r with
  | none => simp [MelCloudDevice.async_update, h]
  | some e =>
    cases e with
    | clientConnectionError => simp [MelCloudDevice.async_update, h]
    | attributeError => simp [MelCloudDevice.async_update, h]
    | timeoutError => simp [MelCloudDevice.async_update, h]
    | clientResponseError st =>
        by_cases h4 : st = 401 <;> simp [MelCloudDevice.async_update, h, h4]

lemma modelJoin_eq (l : List UnitInfo) :
    (l.filter fun x => x.model ≠ "").map (fun x => x.model)
      = (l.map fun x => x.model).filter fun m => m ≠ "" := by
  induction l with
  | nil => rfl
  | cons x xs ih => by_cases h : x.model = "" <;> simp [h] <;> simpa using ih

/-- C2: for every wrapper and every prior availability value, a refresh
whose underlying `update()` raises a `ClientResponseError` with status 401
lets that exception escape to the caller and leaves `available()` at its
prior value. -/
theorem C2_auth_failure_escapes (d : MelCloudDevice) (now : Nat)
    (h : throttleAllows MIN_TIME_BETWEEN_UPDATES d.lastUpdate now = true) :
    (d.async_update now (some (PyErr.clientResponseError 401))).2.2
        = some (PyErr.clientResponseError 401)
    ∧ ((d.async_update now (some (PyErr.clientResponseError 401))).1).available
        = d.available := by
  simp [MelCloudDevice.async_update, h, MelCloudDevice.available]

theorem C2_witness :
    throttleAllows MIN_TIME_BETWEEN_UPDATES unavailableWrapper.lastUpdate 7 = true
    ∧ ((unavailableWrapper.async_update 7 (some (PyErr.clientResponseError 401))).2.2
          = some (PyErr.clientResponseError 401)
        ∧ ((unavailableWrapper.async_update 7 (some (PyErr.clientResponseError 401))).1).available
          = unavailableWrapper.available) :=
  ⟨by decide, C2_auth_failure_escapes unavailableWrapper 7 (by decide)⟩

/-- C3: a refresh whose underlying `update()` raises a
`ClientResponseError` with any status other than 401 lets no exception
escape and leaves `available() = true`. -/
theorem C3_partial_feed_stays_available (d : MelCloudDevice) (now : Nat) (status : Nat)
    (h : throttleAllows MIN_TIME_BETWEEN_UPDATES d.lastUpdate now = true)
    (hs : status ≠ 401) :
    (d.async_update now (some (PyErr.clientResponseError status))).2.2 = none
    ∧ ((d.async_update now (some (PyErr.clientResponseError status))).1).available = true := by
  simp [MelCloudDevice.async_update, h, hs, MelCloudDevice.available]

theorem C3_witness :
    (throttleAllows MIN_TIME_BETWEEN_UPDATES unavailableWrapper.lastUpdate 7 = true
      ∧ (500 : Nat) ≠ 401)
    ∧ ((unavailableWrapper.async_update 7 (some (PyErr.clientResponseError 500))).2.2 = none
        ∧ ((unavailableWrapper.async_update 7 (some (PyErr.clientResponseError 500))).1).available
          = true) :=
  ⟨⟨by decide, by decide⟩,
   C3_partial_feed_stays_available unavailableWrapper 7 500 (by decide) (by decide)⟩

/-- C4: a refresh whose underlying `update()` raises
`ClientConnectionError` lets no exception escape and leaves
`available() = false`; a refresh whose `update()` succeeds leaves
`available() = true`. -/
theorem C4_connectivity_and_success (d : MelCloudDevice) (now : Nat)
    (h : throttleAllows MIN_TIME_BETWEEN_UPDATES d.lastUpdate now = true) :
    ((d.async_update now (some PyErr.clientConnectionError)).2.2 = none
      ∧ ((d.async_update now (some PyErr.clientConnectionError)).1).available = false)
    ∧ ((d.async_update now none).2.2 = none
      ∧ ((d.async_update now none).1).available = true) := by
  simp [MelCloudDevice.async_update, h, MelCloudDevice.available]

theorem C4_witness :
    throttleAllows MIN_TIME_BETWEEN_UPDATES (MelCloudDevice.init testDevice).lastUpdate 7 = true
    ∧ ((((MelCloudDevice.init testDevice).async_update 7
            (some PyErr.clientConnectionError)).2.2 = none
        ∧ (((MelCloudDevice.init testDevice).async_update 7
            (some PyErr.clientConnectionError)).1).available = false)
      ∧ (((MelCloudDevice.init testDevice).async_update 7 none).2.2 = none
        ∧ (((MelCloudDevice.init testDevice).async_update 7 none).1).available = true)) :=
  ⟨by decide, C4_connectivity_and_success (MelCloudDevice.init testDevice) 7 (by decide)⟩

/-- C5: a refresh whose underlying `update()` raises `AttributeError`
(structural incompatibility with the accessor) lets no exception escape
and leaves `available() = false`. -/
theorem C5_shape_error_marks_unavailable (d : MelCloudDevice) (now : Nat)
    (h : throttleAllows MIN_TIME_BETWEEN_UPDATES d.lastUpdate now = true) :
    (d.async_update now (some PyErr.attributeError)).2.2 = none
    ∧ ((d.async_update now (some PyErr.attributeError)).1).available = false := by
  simp [MelCloudDevice.async_update, h, MelCloudDevice.available]

theorem C5_witness :
    throttleAllows MIN_TIME_BETWEEN_UPDATES (MelCloudDevice.init testDevice).lastUpdate 7 = true
    ∧ (((MelCloudDevice.init testDevice).async_update 7 (some PyErr.attributeError)).2.2 = none
      ∧ (((MelCloudDevice.init testDevice).async_update 7
            (some PyErr.attributeError)).1).available = false) :=
  ⟨by decide, C5_shape_error_marks_unavailable (MelCloudDevice.init testDevice) 7 (by decide)⟩

/-- C9: a write whose underlying `set()` raises `ClientConnectionError`
lets no exception escape and leaves `available() = false`; a write whose
`set()` succeeds leaves `available() = true`. -/
theorem C9_write_connectivity_and_success (d : MelCloudDevice)
    (props : List (String × PropValue)) :
    ((d.async_set props (some PyErr.clientConnectionError)).2 = none
      ∧ (d.async_set props (some PyErr.clientConnectionError)).1.available = false)
    ∧ ((d.async_set props none).2 = none
      ∧ (d.async_set props none).1.available = true) := by
  simp [MelCloudDevice.async_set, MelCloudDevice.available]

/-- C10: a write whose underlying `set()` raises anything other than
`ClientConnectionError` (a 401 rejection included) lets that exception
propagate to the caller and leaves `available()` at its prior value. -/
theorem C10_write_other_failures_escape (d : MelCloudDevice)
    (props : List (String × PropValue)) (e : PyErr)
    (h : e ≠ PyErr.clientConnectionError) :
    (d.async_set props (some e)).2 = some e
    ∧ (d.async_set props (some e)).1.available = d.available := by
  cases e with
  | clientConnectionError => exact absurd rfl h
  | clientResponseError st => simp [MelCloudDevice.async_set, MelCloudDevice.available]
  | attributeError => simp [MelCloudDevice.async_set, MelCloudDevice.available]
  | timeoutError => simp [MelCloudDevice.async_set, MelCloudDevice.available]

theorem C10_witness :
    (some (PyErr.clientResponseError 401) : Option PyErr) ≠ some PyErr.clientConnectionError
    ∧ ((unavailableWrapper.async_set [("power", PropValue.bool true)]
          (some (PyErr.clientResponseError 401))).2 = some (PyErr.clientResponseError 401)
      ∧ (unavailableWrapper.async_set [("power", PropValue.bool true)]
          (some (PyErr.clientResponseError 401))).1.available = unavailableWrapper.available) :=
  ⟨by decide,
   C10_write_other_failures_escape unavailableWrapper [("power", PropValue.bool true)]
     (PyErr.clientResponseError 401) (by decide)⟩

/-- C6: two refresh invocations on the same wrapper whose start times lie
within the throttle interval cause at most one underlying `update()`
call, and when the first one ran, the second is an immediate no-op:
unchanged state, no underlying call, no exception. -/
theorem C6_throttle_idempotent (d : MelCloudDevice) (t1 t2 : Nat)
    (r1 r2 : Option PyErr) (h : t2 - t1 < MIN_TIME_BETWEEN_UPDATES) :
    ((d.async_update t1 r1).2.1 && ((d.async_update t1 r1).1.async_update t2 r2).2.1) = false
    ∧ ((d.async_update t1 r1).2.1 = true →
        (d.async_update t1 r1).1.async_update t2 r2 = ((d.async_update t1 r1).1, false, none)) := by
  by_cases hA : throttleAllows MIN_TIME_BETWEEN_UPDATES d.lastUpdate t1 = true
  · obtain ⟨hLast, hInv⟩ := async_update_invoked_lastUpdate d t1 r1 hA
    have hA2 : throttleAllows MIN_TIME_BETWEEN_UPDATES
        ((d.async_update t1 r1).1.lastUpdate) t2 = false := by
      rw [hLast]
      have hnot : ¬ (MIN_TIME_BETWEEN_UPDATES ≤ t2 - t1) := Nat.not_le.mpr h
      simp [throttleAllows, hnot]
    have h2 := async_update_not_allowed (d.async_update t1 r1).1 t2 r2 hA2
    refine ⟨?_, fun _ => h2⟩
    rw [h2]
    simp
  · have h1 := async_update_not_allowed d t1 r1 (by simpa using hA)
    rw [h1]
    simp

theorem C6_witness :
    (100 : Nat) - 0 < MIN_TIME_BETWEEN_UPDATES
    ∧ (((((MelCloudDevice.init testDevice).async_update 0 none).2.1
          && ((((MelCloudDevice.init testDevice).async_update 0 none).1).async_update
                100 none).2.1) = false)
      ∧ (((MelCloudDevice.init testDevice).async_update 0 none).2.1 = true →
          (((MelCloudDevice.init testDevice).async_update 0 none).1).async_update 100 none
            = ((((MelCloudDevice.init testDevice).async_update 0 none).1), false, none))) :=
  ⟨by decide, C6_throttle_idempotent (MelCloudDevice.init testDevice) 0 100 none none (by decide)⟩

/-- C7: for a wrapper whose accessor exposes a units list, the derived
model string is the comma-space join of the non-empty model strings of
the units in order. -/
theorem C7_model_join (d : MelCloudDevice) (l : List UnitInfo)
    (h : d.device.units = some l) :
    (d.device_info).model
      = some (String.intercalate ", " ((l.map fun x => x.model).filter fun m => m ≠ "")) := by
  simp [MelCloudDevice.device_info, h]
  congr 1
  simpa using modelJoin_eq l

theorem C7_witness :
    ((MelCloudDevice.init unitsABDevice).device.units
        = some [{ model := "A" }, { model := "" }, { model := "B" }]
      ∧ ((MelCloudDevice.init unitsABDevice).device_info).model = some "A, B")
    ∧ ((MelCloudDevice.init unitsEmptyDevice).device.units
        = some [{ model := "" }, { model := "" }]
      ∧ ((MelCloudDevice.init unitsEmptyDevice).device_info).model = some "") := by
  refine ⟨⟨rfl, ?_⟩, ⟨rfl, ?_⟩⟩
  · rw [C7_model_join (MelCloudDevice.init unitsABDevice)
        [{ model := "A" }, { model := "" }, { model := "B" }] rfl]
    rfl
  · rw [C7_model_join (MelCloudDevice.init unitsEmptyDevice)
        [{ model := "" }, { model := "" }] rfl]
    rfl

/-- C8: bootstrap yields the distinct authentication failure exactly when
inventory retrieval is rejected with status 401 (within the deadline);
exceeding the 10-second deadline or a transport/connectivity failure
yields the distinct not-ready condition; an ok fleet only arises from a
complete in-time inventory and wraps exactly its devices per class, and a
complete in-time inventory is wrapped one wrapper per device, grouped by
device class in order. -/
theorem C8_bootstrap (elapsed : Nat) (r : Except PyErr (List (String × List Device))) :
    (async_setup_entry elapsed r = SetupResult.authFailed ↔
        elapsed ≤ BOOTSTRAP_TIMEOUT ∧ r = Except.error (PyErr.clientResponseError 401))
    ∧ ((BOOTSTRAP_TIMEOUT < elapsed ∨ r = Except.error PyErr.timeoutError
          ∨ r = Except.error PyErr.clientConnectionError) →
        async_setup_entry elapsed r = SetupResult.notReady)
    ∧ (∀ inv, elapsed ≤ BOOTSTRAP_TIMEOUT → r = Except.ok inv →
        async_setup_entry elapsed r
          = SetupResult.ok (inv.map fun p => (p.1, p.2.map MelCloudDevice.init)))
    ∧ (∀ fleet, async_setup_entry elapsed r = SetupResult.ok fleet →
        elapsed ≤ BOOTSTRAP_TIMEOUT
          ∧ r = Except.ok (fleet.map fun p => (p.1, p.2.map MelCloudDevice.device))) := by
  by_cases hT : BOOTSTRAP_TIMEOUT < elapsed
  · have hne : ¬ elapsed ≤ BOOTSTRAP_TIMEOUT := Nat.not_le.mpr hT
    refine ⟨?_, ?_, ?_, ?_⟩ <;> simp [async_setup_entry, mel_devices_setup, hT, hne]
  · have hle : elapsed ≤ BOOTSTRAP_TIMEOUT := Nat.not_lt.mp hT
    cases r with
    | ok inv =>
        refine ⟨?_, ?_, ?_, ?_⟩
        · simp [async_setup_entry, mel_devices_setup, hT]
        · rintro (hbad | hbad | hbad)
          · exact absurd hbad hT
          · simp at hbad
          · simp at hbad
        · intro inv2 _ hok
          injection hok with hinv
          subst hinv
          simp [async_setup_entry, mel_devices_setup, hT]
        · intro fleet hok
          have h2 : (inv.map fun p => (p.1, p.2.map MelCloudDevice.init)) = fleet := by
            simpa [async_setup_entry, mel_devices_setup, hT] using hok
          subst h2
          exact ⟨hle, by rw [wrap_unwrap]⟩
    | error e =>
        cases e with
        | clientResponseError st =>
            by_cases h4 : st = 401
            · subst h4
              refine ⟨?_, ?_, ?_, ?_⟩
              · simp [async_setup_entry, mel_devices_setup, hT, hle]
              · rintro (hbad | hbad | hbad)
                · exact absurd hbad hT
                · simp at hbad
                · simp at hbad
              · intro inv _ hok; simp at hok
              · intro fleet hok
                simp [async_setup_entry, mel_devices_setup, hT] at hok
            · refine ⟨?_, ?_, ?_, ?_⟩
              · simp [async_setup_entry, mel_devices_setup, hT, h4]
              · intro _; simp [async_setup_entry, mel_devices_setup, hT, h4]
              · intro inv _ hok; simp at hok
              · intro fleet hok
                simp [async_setup_entry, mel_devices_setup, hT, h4] at hok
        | timeoutError =>
            refine ⟨?_, ?_, ?_, ?_⟩
            · simp [async_setup_entry, mel_devices_setup, hT]
            · intro _; simp [async_setup_entry, mel_devices_setup, hT]
            · intro inv _ hok; simp at hok
            · intro fleet hok; simp [async_setup_entry, mel_devices_setup, hT] at hok
        | clientConnectionError =>
            refine ⟨?_, ?_, ?_, ?_⟩
            · simp [async_setup_entry, mel_devices_setup, hT]
            · intro _; simp [async_setup_entry, mel_devices_setup, hT]
            · intro inv _ hok; simp at hok
            · intro fleet hok; simp [async_setup_entry, mel_devices_setup, hT] at hok
        | attributeError =>
            refine ⟨?_, ?_, ?_, ?_⟩
            · simp [async_setup_entry, mel_devices_setup, hT]
            · rintro (hbad | hbad | hbad)
              · exact absurd hbad hT
              · simp at hbad
              · simp at hbad
            · intro inv _ hok; simp at hok
            · intro fleet hok; simp [async_setup_entry, mel_devices_setup, hT] at hok

theorem C8_witness :
    async_setup_entry 3 (Except.error (PyErr.clientResponseError 401)) = SetupResult.authFailed
    ∧ async_setup_entry 11 (Except.ok [("erv", [testDevice])]) = SetupResult.notReady
    ∧ async_setup_entry 3 (Except.error PyErr.clientConnectionError) = SetupResult.notReady
    ∧ async_setup_entry 3 (Except.ok [("erv", [testDevice]), ("atw", [testDevice2])])
        = SetupResult.ok [("erv", [MelCloudDevice.init testDevice]),
                          ("atw", [MelCloudDevice.init testDevice2])] := by
  refine ⟨?_, ?_, ?_, ?_⟩
  · exact (C8_bootstrap 3 (Except.error (PyErr.clientResponseError 401))).1.mpr
      ⟨by decide, rfl⟩
  · exact (C8_bootstrap 11 (Except.ok [("erv", [testDevice])])).2.1 (Or.inl (by decide))
  · exact (C8_bootstrap 3 (Except.error PyErr.clientConnectionError)).2.1 (Or.inr (Or.inr rfl))
  · exact (C8_bootstrap 3 (Except.ok [("erv", [testDevice]), ("atw", [testDevice2])])).2.2.1
      [("erv", [testDevice]), ("atw", [testDevice2])] (by decide) rfl

/-- C1 counterexample: a power-switch turn-on whose underlying `set()`
succeeds, issued while the owning wrapper is marked unavailable, leaves
the wrapper's `available()` false, because `async_turn_on` calls
`self._device.set` directly instead of going through the wrapper's
`async_set`. -/
theorem C1_counterexample :
    ((PowerSwitch.init unavailableWrapper testDevice).async_turn_on none).2.2 = none
    ∧ ¬ ((((PowerSwitch.init unavailableWrapper testDevice).async_turn_on
            none).2.1)._api.available = true) :=
  ⟨rfl, by decide⟩

/-- C1 amended: every adapter write (power switch turn-on/turn-off,
fan-speed select, ventilation-mode select) passes its property dict
directly to the accessor's `set` method, bypassing the wrapper's write
method: the owning wrapper (`_api`, hence `available()`) is unchanged by
the write whatever its outcome, and any exception from `set` propagates
to the hub. -/
theorem C1_amended_writes_bypass_wrapper (s : PowerSwitch) (f : ErvFanSpeedSelect)
    (v : ErvVentilationModeSelect) (r : Option PyErr) (opt : String) :
    ((s.async_turn_on r).1 = [("power", PropValue.bool true)]
      ∧ (s.async_turn_on r).2.1._api = s._api ∧ (s.async_turn_on r).2.2 = r)
    ∧ ((s.async_turn_off r).1 = [("power", PropValue.bool false)]
      ∧ (s.async_turn_off r).2.1._api = s._api ∧ (s.async_turn_off r).2.2 = r)
    ∧ ((f.async_select_option opt r).1 = [("fan_speed", PropValue.str opt)]
      ∧ (f.async_select_option opt r).2.1._api = f._api ∧ (f.async_select_option opt r).2.2 = r)
    ∧ ((v.async_select_option opt r).1 = [("ventilation_mode", PropValue.str opt)]
      ∧ (v.async_select_option opt r).2.1._api = v._api ∧ (v.async_select_option opt r).2.2 = r) :=
  ⟨⟨rfl, rfl, rfl⟩, ⟨rfl, rfl, rfl⟩, ⟨rfl, rfl, rfl⟩, ⟨rfl, rfl, rfl⟩⟩
